import Mathlib

/-!
Shallow embedding of `thingiverse/ThingiverseService.py` (class
`ThingiverseService`), the UI-facing content bridge of the ThingiBrowser
plugin.  Pure state is modelled by `ServiceState`; every slot, property and
callback of the Python class becomes a Lean function from the old state to the
new state together with the list of observable side effects (signal emissions,
API requests, dialogs, temp-file writes, local-file loads) it produces, in
source order.  The Qt event loop serialises all of these onto one thread, so
each operation is a plain state transition.
-/

namespace ThingiBrowser

/-- A parsed JSON response object (class `JSONObject` of the API client).
Python attributes are dynamic; the fields the service reads are the file
`name`, the optional `error` attribute (modelled by `hasError` plus
`errorField`), the `str` rendering of the object and of its `__dict__`. -/
structure JSONObject where
  name : String := ""
  hasError : Bool := false
  errorField : String := ""
  asString : String := ""
  dictString : String := ""
deriving Repr, DecidableEq

/-- The four `pyqtSignal`s declared on `ThingiverseService`. -/
inductive Signal
  | thingsChanged
  | activeThingChanged
  | activeThingFilesChanged
  | downloadingStateChanged
deriving Repr, DecidableEq

/-- The asynchronous requests `ThingiverseService` issues to
`ThingiverseApiClient` (`search`, `getThing`, `getThingFiles`,
`downloadThingFile`). -/
inductive Request
  | search (terms : String) (page : Int)
  | getThing (thing_id : Int)
  | getThingFiles (thing_id : Int)
  | downloadFile (file_id : Int) (file_name : String)
deriving Repr, DecidableEq

/-- Observable side effects of one operation, in the order the source
performs them. -/
inductive Effect
  | emit (sig : Signal)
  | request (r : Request)
  | dialog (title : String) (text : String) (detail : String)
  | writeTemp (path : String) (data : List Nat)
  | readLocalFile (path : String)
deriving Repr, DecidableEq

/-- The instance attributes set in `ThingiverseService.__init__`
(the API-client handle carries no state we model). -/
structure ServiceState where
  things : List JSONObject
  search_page : Int
  search_terms : String
  thing_details : Option JSONObject
  thing_files : List JSONObject
  is_downloading : Bool
  supported_file_types : List String
deriving Repr, DecidableEq

/-- `__init__`: empty results, page 1, empty terms, no active thing, no
files, not downloading, no supported types cached yet. -/
def initState : ServiceState :=
  { things := []
    search_page := 1
    search_terms := ""
    thing_details := none
    thing_files := []
    is_downloading := false
    supported_file_types := [] }

/-- Split a character list on the `/` separator, keeping empty segments,
mirroring how `pathlib.PurePosixPath` tokenises a path string. -/
def splitSlash : List Char → List (List Char)
  | [] => [[]]
  | c :: cs =>
    match splitSlash cs with
    | [] => [[]]
    | p :: ps => if c = '/' then [] :: p :: ps else (c :: p) :: ps

/-- `pathlib.Path(p).name`: the final path component, where empty segments
and `.` segments are dropped during parsing, and the empty string results
for a root or empty path. -/
def pathName (p : String) : List Char :=
  (((splitSlash p.toList).filter (fun c => !c.isEmpty && c != ['.'])).getLast?).getD []

/-- Index of the last `.` in a character list (Python `str.rfind`),
or `none` when there is no dot. -/
def rfindDot (cs : List Char) : Option Nat :=
  match (cs.reverse.findIdx? (fun c => c == '.')) with
  | none => none
  | some j => some (cs.length - 1 - j)

/-- `pathlib.Path(p).suffix`: the substring of the name from its last dot
on, but only when that dot is neither the first nor the last character of
the name; otherwise the empty string. -/
def pathSuffix (p : String) : List Char :=
  let nm := pathName p
  match rfindDot nm with
  | some i => if 0 < i ∧ i < nm.length - 1 then nm.drop i else []
  | none => []

/-- `str.lower` on one character, for the ASCII range the file extensions
live in. -/
def lowerChar (c : Char) : Char :=
  if 'A' ≤ c ∧ c ≤ 'Z' then Char.ofNat (c.toNat + 32) else c

/-- Python `s.strip(".")`: remove leading and trailing dots. -/
def stripDots (cs : List Char) : List Char :=
  ((cs.dropWhile (fun c => c == '.')).reverse.dropWhile (fun c => c == '.')).reverse

/-- The comprehension condition of `_onThingFilesFinished`:
`pathlib.Path(f.name).suffix.lower().strip(".")`. -/
def fileTypeOf (f : JSONObject) : String :=
  String.mk (stripDots ((pathSuffix f.name).map lowerChar))

/-- `updateSupportedFileTypes`: cache the keys of the host application's
`getSupportedFileTypesRead()` mapping, supplied here as the environment
input `types`. -/
def updateSupportedFileTypes (types : List String) (s : ServiceState) :
    ServiceState × List Effect :=
  ({ s with supported_file_types := types }, [])

/-- Property `things`: the found things (the `__dict__` projection is the
identity in this model). -/
def things (s : ServiceState) : List JSONObject :=
  s.things

/-- Property `activeThing`: the active thing details, or absent. -/
def activeThing (s : ServiceState) : Option JSONObject :=
  s.thing_details

/-- Property `activeThingFiles`: the filtered files of the active thing. -/
def activeThingFiles (s : ServiceState) : List JSONObject :=
  s.thing_files

/-- Property `hasActiveThing`: `bool(self._thing_details)`. -/
def hasActiveThing (s : ServiceState) : Bool :=
  s.thing_details.isSome

/-- Property `isDownloading`. -/
def isDownloading (s : ServiceState) : Bool :=
  s.is_downloading

/-- `_clearSearchResults`: empty the things list and emit `thingsChanged`. -/
def clearSearchResults (s : ServiceState) : ServiceState × List Effect :=
  ({ s with things := [] }, [Effect.emit Signal.thingsChanged])

/-- `hideThingDetails`: drop the thing details and emit
`activeThingChanged`. -/
def hideThingDetails (s : ServiceState) : ServiceState × List Effect :=
  ({ s with thing_details := none }, [Effect.emit Signal.activeThingChanged])

/-- `search(search_terms)`: clear results, hide details, reset the page to
1, store the terms, then issue one search request with the stored terms and
page. -/
def search (terms : String) (s : ServiceState) : ServiceState × List Effect :=
  let r1 := clearSearchResults s
  let r2 := hideThingDetails r1.1
  let s3 := { r2.1 with search_page := 1, search_terms := terms }
  (s3, r1.2 ++ r2.2 ++ [Effect.request (Request.search s3.search_terms s3.search_page)])

/-- `addSearchPage`: increment the stored page and issue one search request
with the stored terms and the new page. -/
def addSearchPage (s : ServiceState) : ServiceState × List Effect :=
  let s1 := { s with search_page := s.search_page + 1 }
  (s1, [Effect.request (Request.search s1.search_terms s1.search_page)])

/-- `showThingDetails(thing_id)`: issue the two independent detail and file
requests; no state changes. -/
def showThingDetails (thing_id : Int) (s : ServiceState) : ServiceState × List Effect :=
  (s, [Effect.request (Request.getThing thing_id),
       Effect.request (Request.getThingFiles thing_id)])

/-- `downloadThingFile(file_id, file_name)`: set the downloading flag, emit
`downloadingStateChanged`, issue the download request. -/
def downloadThingFile (file_id : Int) (file_name : String) (s : ServiceState) :
    ServiceState × List Effect :=
  let s1 := { s with is_downloading := true }
  (s1, [Effect.emit Signal.downloadingStateChanged,
        Effect.request (Request.downloadFile file_id file_name)])

/-- `_onThingDetailsFinished`: store the thing and emit
`activeThingChanged`. -/
def onThingDetailsFinished (thing : JSONObject) (s : ServiceState) :
    ServiceState × List Effect :=
  ({ s with thing_details := some thing }, [Effect.emit Signal.activeThingChanged])

/-- `_onThingFilesFinished`: keep only the files whose
`Path(name).suffix.lower().strip(".")` is in the cached supported types,
then emit `activeThingFilesChanged`. -/
def onThingFilesFinished (thing_files : List JSONObject) (s : ServiceState) :
    ServiceState × List Effect :=
  let kept := thing_files.filter (fun f => s.supported_file_types.contains (fileTypeOf f))
  ({ s with thing_files := kept }, [Effect.emit Signal.activeThingFilesChanged])

/-- `_onDownloadFinished`: write the bytes to a named temporary file whose
name is `tmpBase` (the directory plus random stem chosen by `tempfile`)
followed by the `suffix=file_name` argument, ask the host to read that
file, clear the downloading flag, emit `downloadingStateChanged`. -/
def onDownloadFinished (tmpBase : String) (file_bytes : List Nat) (file_name : String)
    (s : ServiceState) : ServiceState × List Effect :=
  let path := tmpBase ++ file_name
  ({ s with is_downloading := false },
   [Effect.writeTemp path file_bytes,
    Effect.readLocalFile path,
    Effect.emit Signal.downloadingStateChanged])

/-- `_onSearchFinished`: extend the things list with the new page and emit
`thingsChanged`. -/
def onSearchFinished (new_things : List JSONObject) (s : ServiceState) :
    ServiceState × List Effect :=
  ({ s with things := s.things ++ new_things }, [Effect.emit Signal.thingsChanged])

/-- `error_message` of `_onRequestFailed`: "Unknown" without an error,
otherwise the `error` attribute when present, otherwise the object itself
(rendered by `format`). -/
def failureMessage : Option JSONObject → String
  | none => "Unknown"
  | some e => if e.hasError then e.errorField else e.asString

/-- `setDetailedText` argument of `_onRequestFailed`:
`str(error.__dict__)` or the empty string. -/
def failureDetail : Option JSONObject → String
  | none => ""
  | some e => e.dictString

/-- `_onRequestFailed`: a static method; it builds and executes exactly one
critical message box and touches no service state. -/
def onRequestFailed (error : Option JSONObject) (s : ServiceState) :
    ServiceState × List Effect :=
  (s, [Effect.dialog "Oh no!"
        ("Thingiverse returned an error: " ++ failureMessage error ++ ".")
        (failureDetail error)])

/-- Every slot and callback of the bridge, as one event alphabet.  Success
callbacks carry the data the API client would deliver; `downloadFinished`
also carries the temp-file stem `tempfile` would choose. -/
inductive Event
  | updateSupportedFileTypes (types : List String)
  | search (terms : String)
  | addSearchPage
  | showThingDetails (thing_id : Int)
  | hideThingDetails
  | downloadThingFile (file_id : Int) (file_name : String)
  | thingDetailsFinished (thing : JSONObject)
  | thingFilesFinished (fs : List JSONObject)
  | downloadFinished (tmpBase : String) (file_bytes : List Nat) (file_name : String)
  | searchFinished (ts : List JSONObject)
  | requestFailed (error : Option JSONObject)
deriving Repr, DecidableEq

/-- Dispatch one event to the corresponding operation of the service. -/
def step : Event → ServiceState → ServiceState × List Effect
  | Event.updateSupportedFileTypes types, s => updateSupportedFileTypes types s
  | Event.search terms, s => search terms s
  | Event.addSearchPage, s => addSearchPage s
  | Event.showThingDetails i, s => showThingDetails i s
  | Event.hideThingDetails, s => hideThingDetails s
  | Event.downloadThingFile i n, s => downloadThingFile i n s
  | Event.thingDetailsFinished t, s => onThingDetailsFinished t s
  | Event.thingFilesFinished fs, s => onThingFilesFinished fs s
  | Event.downloadFinished b d n, s => onDownloadFinished b d n s
  | Event.searchFinished ts, s => onSearchFinished ts s
  | Event.requestFailed e, s => onRequestFailed e s

/-- Select the API requests among a list of effects. -/
def requestOf : Effect → Option Request
  | Effect.request r => some r
  | _ => none

/-- Whether an effect is a dialog invocation. -/
def isDialog : Effect → Bool
  | Effect.dialog _ _ _ => true
  | _ => false

/-- The extension as the specification words it for the filtering policy:
the suffix of the file name after its final dot, with the leading dot
stripped, lowercased; empty when the name has no dot. -/
def specFileExtension (nm : String) : String :=
  match rfindDot nm.toList with
  | some i => String.mk ((nm.toList.drop (i + 1)).map lowerChar)
  | none => ""

/-- C1 counterexample: the claim reads the extension as the suffix after the
final dot with the leading dot stripped, so a file named ".stl" has
extension "stl"; with "stl" in the cached supported set the claim puts that
file in the stored active-file list, but `pathlib.Path(".stl").suffix` is
empty (a leading dot marks a hidden file, not an extension), so
`_onThingFilesFinished` filters it out and the accessor returns the empty
list. -/
theorem hidden_file_filtered_out_counterexample :
    specFileExtension ".stl" ∈ ["stl"] ∧
    activeThingFiles (onThingFilesFinished [({ name := ".stl" } : JSONObject)]
      { initState with supported_file_types := ["stl"] }).1 = [] := by
  exact ⟨by decide, rfl⟩

/-- C1 (amended): after caching a supported-type list via
`updateSupportedFileTypes`, a files-success callback stores exactly the
delivered files whose extension in pathlib's sense — the piece of the file
name from its last dot, empty when that dot is the first or last character
of the name — lowercased and stripped of dots, is a member of the cached
list; files outside that set never appear in the `activeThingFiles`
accessor. -/
theorem activeThingFiles_filter_characterization
    (types : List String) (fs : List JSONObject) (s : ServiceState) (f : JSONObject) :
    f ∈ activeThingFiles (onThingFilesFinished fs (updateSupportedFileTypes types s).1).1 ↔
      f ∈ fs ∧ fileTypeOf f ∈ types := by
  simp [activeThingFiles, onThingFilesFinished, updateSupportedFileTypes,
    List.mem_filter]

/-- C3: `search(terms)` empties the results list, clears the active item
(`activeThing` absent, `hasActiveThing` false), resets the stored page to
1, stores the terms, and issues exactly one search request for page 1 with
those terms; a subsequent success callback delivering `items` leaves the
results accessor with exactly `items` and the active item still absent. -/
theorem search_resets_and_requests_page_one
    (terms : String) (s : ServiceState) (items : List JSONObject) :
    things (search terms s).1 = [] ∧
    activeThing (search terms s).1 = none ∧
    hasActiveThing (search terms s).1 = false ∧
    (search terms s).1.search_page = 1 ∧
    (search terms s).1.search_terms = terms ∧
    (search terms s).2.filterMap requestOf = [Request.search terms 1] ∧
    things (onSearchFinished items (search terms s).1).1 = items ∧
    activeThing (onSearchFinished items (search terms s).1).1 = none := by
  refine ⟨rfl, rfl, rfl, rfl, rfl, rfl, ?_, rfl⟩
  simp [things, onSearchFinished, search, hideThingDetails, clearSearchResults]

/-- C4: `addSearchPage()` increments the stored page counter by one and
issues exactly one search request with the stored terms and the new
counter value — one greater than the counter before the call, which (as
the second conjunct for `search` shows) is the page every preceding
search-type request was issued with; the success callback appends the
delivered page to the existing results, preserving all held items. -/
theorem addSearchPage_increments_page_and_appends (s : ServiceState) :
    (addSearchPage s).1.search_page = s.search_page + 1 ∧
    (addSearchPage s).2.filterMap requestOf =
      [Request.search s.search_terms ((addSearchPage s).1.search_page)] ∧
    (search s.search_terms s).2.filterMap requestOf =
      [Request.search s.search_terms ((search s.search_terms s).1.search_page)] ∧
    (∀ items, things (onSearchFinished items s).1 = things s ++ items) := by
  exact ⟨rfl, rfl, rfl, fun items => rfl⟩

/-- C7: the shared failure handler `_onRequestFailed` is a static method
and leaves every piece of bridge state unchanged — results list, stored
terms, page counter, active item details, active file list, downloading
flag and cached supported types all keep their values. -/
theorem onRequestFailed_preserves_state (error : Option JSONObject) (s : ServiceState) :
    things (step (Event.requestFailed error) s).1 = things s ∧
    (step (Event.requestFailed error) s).1.search_terms = s.search_terms ∧
    (step (Event.requestFailed error) s).1.search_page = s.search_page ∧
    activeThing (step (Event.requestFailed error) s).1 = activeThing s ∧
    activeThingFiles (step (Event.requestFailed error) s).1 = activeThingFiles s ∧
    isDownloading (step (Event.requestFailed error) s).1 = isDownloading s ∧
    (step (Event.requestFailed error) s).1.supported_file_types = s.supported_file_types := by
  exact ⟨rfl, rfl, rfl, rfl, rfl, rfl, rfl⟩

/-- C8: every operation and callback of the bridge either leaves the
results list unchanged, extends it by appending new items at the end, or
replaces it with the empty list; no step removes or reorders a proper
subset of existing items. -/
theorem things_grow_or_clear (ev : Event) (s : ServiceState) :
    (step ev s).1.things = s.things ∨
    (∃ new_things, (step ev s).1.things = s.things ++ new_things) ∨
    (step ev s).1.things = [] := by
  cases ev with
  | search terms => exact Or.inr (Or.inr rfl)
  | searchFinished ts => exact Or.inr (Or.inl ⟨ts, rfl⟩)
  | updateSupportedFileTypes types => exact Or.inl rfl
  | addSearchPage => exact Or.inl rfl
  | showThingDetails i => exact Or.inl rfl
  | hideThingDetails => exact Or.inl rfl
  | downloadThingFile i n => exact Or.inl rfl
  | thingDetailsFinished t => exact Or.inl rfl
  | thingFilesFinished fs => exact Or.inl rfl
  | downloadFinished b d n => exact Or.inl rfl
  | requestFailed e => exact Or.inl rfl

/-- C2: the downloading flag is true immediately after
`downloadThingFile`, and a step turning it from true to false can only be
the download completion callback `_onDownloadFinished` — the flag is false
only after a completion callback has fired. -/
theorem isDownloading_true_until_completion
    (file_id : Int) (file_name : String) (s t : ServiceState) (ev : Event)
    (h1 : t.is_downloading = true)
    (h2 : (step ev t).1.is_downloading = false) :
    isDownloading (downloadThingFile file_id file_name s).1 = true ∧
    ∃ tmpBase file_bytes fn, ev = Event.downloadFinished tmpBase file_bytes fn := by
  refine ⟨rfl, ?_⟩
  cases ev
  case downloadFinished b d n => exact ⟨b, d, n, rfl⟩
  all_goals simp_all [step, search, clearSearchResults, hideThingDetails, addSearchPage,
    showThingDetails, downloadThingFile, updateSupportedFileTypes, onThingDetailsFinished,
    onThingFilesFinished, onSearchFinished, onRequestFailed]

/-- Witness for C2 at a concrete downloading state and a concrete download
completion event. -/
theorem isDownloading_true_until_completion_witness :
    ({ initState with is_downloading := true } : ServiceState).is_downloading = true ∧
    (step (Event.downloadFinished "tmpdir/tmp7a" [7, 7] "part.stl")
      { initState with is_downloading := true }).1.is_downloading = false ∧
    (isDownloading (downloadThingFile 42 "part.stl" initState).1 = true ∧
     ∃ tmpBase file_bytes fn,
       Event.downloadFinished "tmpdir/tmp7a" [7, 7] "part.stl" =
         Event.downloadFinished tmpBase file_bytes fn) := by
  exact ⟨rfl, rfl,
    isDownloading_true_until_completion 42 "part.stl" initState
      { initState with is_downloading := true }
      (Event.downloadFinished "tmpdir/tmp7a" [7, 7] "part.stl") rfl rfl⟩

/-- The part of the name kept by `pathSuffix` is a suffix of the whole
string, provided the string has no path separator (so that the name of
the path is the string itself or empty). -/
theorem pathSuffix_suffix (p : String) (h : splitSlash p.toList = [p.toList]) :
    pathSuffix p <:+ p.toList := by
  have hn : pathName p = p.toList ∨ pathName p = [] := by
    unfold pathName
    rw [h]
    cases hb : (!List.isEmpty p.toList && p.toList != ['.']) with
    | true =>
      left
      simp only [String.toList] at hb
      simp [List.filter, hb]
    | false =>
      right
      simp only [String.toList] at hb
      simp [List.filter, hb]
  have key : ∀ nm : List Char, nm <:+ p.toList →
      (match rfindDot nm with
       | some i => if 0 < i ∧ i < nm.length - 1 then nm.drop i else []
       | none => []) <:+ p.toList := by
    intro nm hsub
    cases hr : rfindDot nm with
    | none => exact List.nil_suffix
    | some i =>
      by_cases hc : 0 < i ∧ i < nm.length - 1
      · simp only [hc, if_true]
        exact (List.drop_suffix i nm).trans hsub
      · simp only [hc, if_false]
        exact List.nil_suffix
  unfold pathSuffix
  rcases hn with hn | hn
  · rw [hn]
    exact key p.toList (List.suffix_refl _)
  · rw [hn]
    exact key [] List.nil_suffix

/-- C5: `downloadThingFile` sets the downloading flag and notifies
observers, then issues the download request; the completion callback
writes the received bytes to a temporary file whose name ends with the
requested file name — hence with the file name's extension — instructs the
host to read that same file as a local model, clears the flag and notifies
observers.  The hypothesis states that the file name contains no path
separator. -/
theorem downloadThingFile_flow
    (file_id : Int) (file_name : String) (s t : ServiceState)
    (tmpBase : String) (file_bytes : List Nat)
    (h : splitSlash file_name.toList = [file_name.toList]) :
    (downloadThingFile file_id file_name s).1.is_downloading = true ∧
    (downloadThingFile file_id file_name s).2 =
      [Effect.emit Signal.downloadingStateChanged,
       Effect.request (Request.downloadFile file_id file_name)] ∧
    (onDownloadFinished tmpBase file_bytes file_name t).2 =
      [Effect.writeTemp (tmpBase ++ file_name) file_bytes,
       Effect.readLocalFile (tmpBase ++ file_name),
       Effect.emit Signal.downloadingStateChanged] ∧
    pathSuffix file_name <:+ (tmpBase ++ file_name).toList ∧
    file_name.toList <:+ (tmpBase ++ file_name).toList ∧
    (onDownloadFinished tmpBase file_bytes file_name t).1.is_downloading = false := by
  have happ : (tmpBase ++ file_name).toList = tmpBase.toList ++ file_name.toList := by
    simp [String.toList, String.data_append]
  have hfull : file_name.toList <:+ (tmpBase ++ file_name).toList := by
    rw [happ]
    exact List.suffix_append _ _
  exact ⟨rfl, rfl, rfl, (pathSuffix_suffix file_name h).trans hfull, hfull, rfl⟩

/-- Witness for C5 at a concrete download of the file name "part.stl". -/
theorem downloadThingFile_flow_witness :
    splitSlash (String.toList "part.stl") = [String.toList "part.stl"] ∧
    ((downloadThingFile 42 "part.stl" initState).1.is_downloading = true ∧
     (downloadThingFile 42 "part.stl" initState).2 =
       [Effect.emit Signal.downloadingStateChanged,
        Effect.request (Request.downloadFile 42 "part.stl")] ∧
     (onDownloadFinished "tmpdir/tmp7a" [7, 7] "part.stl" initState).2 =
       [Effect.writeTemp ("tmpdir/tmp7a" ++ "part.stl") [7, 7],
        Effect.readLocalFile ("tmpdir/tmp7a" ++ "part.stl"),
        Effect.emit Signal.downloadingStateChanged] ∧
     pathSuffix "part.stl" <:+ ("tmpdir/tmp7a" ++ "part.stl").toList ∧
     (String.toList "part.stl") <:+ ("tmpdir/tmp7a" ++ "part.stl").toList ∧
     (onDownloadFinished "tmpdir/tmp7a" [7, 7] "part.stl" initState).1.is_downloading = false) := by
  exact ⟨by decide,
    downloadThingFile_flow 42 "part.stl" initState initState "tmpdir/tmp7a" [7, 7] (by decide)⟩

/-- C6: the failure handler is total, produces exactly one dialog
invocation and nothing else, and the dialog's message is built from the
error's message attribute when present, otherwise from the raw error
object, otherwise from "Unknown", with the dump of the error record (or an
empty text) as detailed text. -/
theorem onRequestFailed_dialog_content (error : Option JSONObject) (s : ServiceState) :
    (step (Event.requestFailed error) s).2.countP (fun e => isDialog e) = 1 ∧
    ∃ msg det,
      (step (Event.requestFailed error) s).2 =
        [Effect.dialog "Oh no!" ("Thingiverse returned an error: " ++ msg ++ ".") det] ∧
      msg = (match error with
             | some e => if e.hasError then e.errorField else e.asString
             | none => "Unknown") ∧
      det = (match error with
             | some e => e.dictString
             | none => "") := by
  refine ⟨rfl, failureMessage error, failureDetail error, rfl, ?_, ?_⟩
  · cases error <;> rfl
  · cases error <;> rfl

/-- C9: `hideThingDetails()` clears the active item synchronously —
afterwards `activeThing` is absent and `hasActiveThing` is false — and
emits the `activeThingChanged` notification exactly once. -/
theorem hideThingDetails_clears_active_thing (s : ServiceState) :
    activeThing (hideThingDetails s).1 = none ∧
    hasActiveThing (hideThingDetails s).1 = false ∧
    (hideThingDetails s).2.count (Effect.emit Signal.activeThingChanged) = 1 := by
  exact ⟨rfl, rfl, rfl⟩

/-- C10: `hideThingDetails()` keeps the active-file list as it was and
emits no `activeThingFilesChanged` notification; among all operations and
callbacks of the bridge, only the files-success callback
`_onThingFilesFinished` can change the stored file list. -/
theorem hideThingDetails_preserves_thing_files (s : ServiceState) (ev : Event)
    (h : (step ev s).1.thing_files ≠ s.thing_files) :
    activeThingFiles (hideThingDetails s).1 = activeThingFiles s ∧
    Effect.emit Signal.activeThingFilesChanged ∉ (hideThingDetails s).2 ∧
    ∃ fs, ev = Event.thingFilesFinished fs := by
  refine ⟨rfl, by simp [hideThingDetails], ?_⟩
  cases ev
  case thingFilesFinished fs => exact ⟨fs, rfl⟩
  all_goals exact absurd rfl h

/-- Witness for C10 at a concrete state whose file list is changed by a
files-success callback delivering one supported file. -/
theorem hideThingDetails_preserves_thing_files_witness :
    ((step (Event.thingFilesFinished [({ name := "part.stl" } : JSONObject)])
        { initState with supported_file_types := ["stl"] }).1.thing_files ≠
      ({ initState with supported_file_types := ["stl"] } : ServiceState).thing_files) ∧
    (activeThingFiles (hideThingDetails { initState with supported_file_types := ["stl"] }).1 =
       activeThingFiles { initState with supported_file_types := ["stl"] } ∧
     Effect.emit Signal.activeThingFilesChanged ∉
       (hideThingDetails { initState with supported_file_types := ["stl"] }).2 ∧
     ∃ fs, Event.thingFilesFinished [({ name := "part.stl" } : JSONObject)] =
         Event.thingFilesFinished fs) := by
  exact ⟨by decide,
    hideThingDetails_preserves_thing_files { initState with supported_file_types := ["stl"] }
      (Event.thingFilesFinished [({ name := "part.stl" } : JSONObject)]) (by decide)⟩

end ThingiBrowser
